import Mathlib

/-!
Verification of `gujarati_speech_to_text.py` (repository TempGuj).

The program is a single linear pipeline (`main`): record audio, save it to a
temporary WAV file (`save_audio_temp`), transcribe it with a Whisper model
(`transcribe_audio`), run a heuristic Unicode-range script check on the
resulting text, print/save the result, and clean the temporary file up in a
`finally` block.

The development below is a shallow embedding of that pipeline:
* the script check of `main` (lines 157-174) becomes the pure function
  `validate`;
* the keyword arguments passed to `model.transcribe` (lines 94-102) become
  the record `TranscribeArgs` built by `transcribe_call`;
* the whole of `main` with its `try`/`except`/`finally` becomes `mainRun`,
  a function from an environment (which fixes the outcome of each fallible
  external call, the model's answer and the current timestamp) to a final
  `RunResult` carrying the final filesystem, the run outcome and what was
  printed;
* the filesystem is an association list from paths to contents;
* `datetime.now().strftime("%Y%m%d_%H%M%S")` becomes `formatTimestamp`
  (zero-padded fixed-width decimal fields), and Python's `str.strip()` is
  embedded as `pyStrip` (whitespace removed from both ends).
-/

/-- Python's `str.strip()` with no argument (line 105 of the source strips
the transcription): remove whitespace from both ends of the string. -/
def pyStrip (s : String) : String :=
  ⟨((s.data.dropWhile Char.isWhitespace).reverse.dropWhile
      Char.isWhitespace).reverse⟩

/-- Unicode-block membership test: does any code point of `text` lie in the
inclusive range `lo`..`hi`?  Embeds Python's
`any(lo <= char <= hi for char in text)`. -/
def hasScriptRange (lo hi : Nat) (text : List Char) : Bool :=
  text.any (fun c => decide (lo ≤ c.toNat) && decide (c.toNat ≤ hi))

/-- The alternate scripts the warning branch of `main` distinguishes. -/
inductive AltScript where
  | telugu
  | devanagari
  | tamil
  | latinRomanized
  deriving DecidableEq, Repr

/-- The report of the script validation stage, as the spec describes it:
whether the text matches the expected (Gujarati) script, and, when it does
not, which other script is likely present. -/
structure ValidationReport where
  matches_expected_script : Bool
  likely_actual_script : Option AltScript
  deriving DecidableEq, Repr

/-- The script-validation logic of `main` (lines 157-174), on the list of
code points of the text.  The code computes `has_gujarati_script`,
`has_telugu_script`, `has_devanagari_script`, `has_tamil_script` as
any-character-in-range tests, and warns exactly when the detected language
is `"gu"` and the text has no Gujarati code point; the warning classifies
the likely script by the `if`/`elif` chain Telugu, Devanagari, Tamil, with
Latin/Romanized as the fallback. -/
def validateL (text : List Char) (detected_lang : String) : ValidationReport :=
  let has_gujarati_script := hasScriptRange 0x0A80 0x0AFF text
  let has_telugu_script := hasScriptRange 0x0C00 0x0C7F text
  let has_devanagari_script := hasScriptRange 0x0900 0x097F text
  let has_tamil_script := hasScriptRange 0x0B80 0x0BFF text
  if detected_lang = "gu" && !has_gujarati_script then
    { matches_expected_script := false
      likely_actual_script :=
        some (if has_telugu_script then AltScript.telugu
              else if has_devanagari_script then AltScript.devanagari
              else if has_tamil_script then AltScript.tamil
              else AltScript.latinRomanized) }
  else
    { matches_expected_script := true, likely_actual_script := none }

/-- The script validation on a string (Python iterates over the code points
of `transcribed_text`). -/
def validate (text : String) (detected_lang : String) : ValidationReport :=
  validateL text.data detected_lang

/-- The keyword arguments `transcribe_audio` passes to `model.transcribe`
(lines 94-102 of the source). -/
structure TranscribeArgs where
  audio_path : String
  model_name : String
  language : String
  task : String
  initial_prompt : String
  fp16 : Bool
  verbose : Bool
  condition_on_previous_text : Bool
  deriving DecidableEq, Repr

/-- The call `transcribe_audio` makes: `model.transcribe(audio_path,
language="gu", task="transcribe", initial_prompt=..., fp16=False,
verbose=False, condition_on_previous_text=False)`, with the model named by
`model_name` loaded beforehand. -/
def transcribe_call (audio_path : String) (model_name : String) : TranscribeArgs :=
  { audio_path := audio_path
    model_name := model_name
    language := "gu"
    task := "transcribe"
    initial_prompt := "આ ગુજરાતી ભાષા છે. ગુજરાતી લિપિમાં ટ્રાન્સક્રિપ્શન આપો."
    fp16 := false
    verbose := false
    condition_on_previous_text := false }

/-- `result.get("language", "unknown")` (line 106 of the source): the raw
model result may lack a `"language"` entry, in which case the detected
language is reported as `"unknown"`. -/
def detectedLanguage (raw : Option String) : String :=
  raw.getD "unknown"

/-- The filesystem, as an association list from paths to file contents. -/
abbrev FS := List (String × String)

/-- Creating (or truncating and rewriting) a file. -/
def createFile (fs : FS) (p c : String) : FS :=
  (p, c) :: fs.filter (fun e => e.1 ≠ p)

/-- `os.remove(p)` (assumed to succeed when the file exists). -/
def removeFile (fs : FS) (p : String) : FS :=
  fs.filter (fun e => e.1 ≠ p)

/-- `os.path.exists(p)`. -/
def fileExists (fs : FS) (p : String) : Bool :=
  fs.any (fun e => e.1 = p)

/-- The content of the file at `p`, when it exists. -/
def fileContent (fs : FS) (p : String) : Option String :=
  (fs.find? (fun e => e.1 = p)).map (fun e => e.2)

/-- Marker content of the temporary file right after
`tempfile.NamedTemporaryFile` allocated it (an empty file). -/
def emptyWav : String := ""

/-- Marker content of the temporary file after `sf.write` serialized the
recorded buffer into it. -/
def wavData : String := "wav-pcm-float32-mono-16000"

/-- Outcome of one fallible external call: it returns normally, raises an
ordinary exception, or is hit by `KeyboardInterrupt`. -/
inductive Outcome where
  | ok
  | err
  | interrupt
  deriving DecidableEq, Repr

/-- Outcome class of the whole run: the `try` body completed, or control
reached one of the two `except` handlers of `main`. -/
inductive FinalOutcome where
  | normal
  | interrupted
  | errored
  deriving DecidableEq, Repr

/-- A timestamp as `datetime.now()` yields it, restricted to the fields the
format string `"%Y%m%d_%H%M%S"` uses. -/
structure Timestamp where
  year : Nat
  month : Nat
  day : Nat
  hour : Nat
  minute : Nat
  second : Nat
  deriving DecidableEq, Repr

/-- Fixed-width 2-digit zero-padded decimal rendering, as `strftime`'s
`%m`, `%d`, `%H`, `%M`, `%S` produce for their in-range values. -/
def pad2 (n : Nat) : List Char :=
  [Nat.digitChar (n / 10), Nat.digitChar (n % 10)]

/-- Fixed-width 4-digit zero-padded decimal rendering, as `strftime`'s `%Y`
produces for years below 10000. -/
def pad4 (n : Nat) : List Char :=
  pad2 (n / 100) ++ pad2 (n % 100)

/-- `datetime.now().strftime("%Y%m%d_%H%M%S")` (line 184 of the source). -/
def formatTimestamp (t : Timestamp) : String :=
  ⟨pad4 t.year ++ pad2 t.month ++ pad2 t.day ++
    ('_' :: (pad2 t.hour ++ pad2 t.minute ++ pad2 t.second))⟩

/-- The ranges `strftime` style zero-padding relies on: each 2-digit field
below 100 and the year below 10000 (any timestamp `datetime.now()` can
return satisfies far tighter bounds). -/
def Timestamp.Valid (t : Timestamp) : Prop :=
  t.year < 10000 ∧ t.month < 100 ∧ t.day < 100 ∧
    t.hour < 100 ∧ t.minute < 100 ∧ t.second < 100

/-- `f"transcription_{timestamp}.txt"` (line 185 of the source). -/
def outputFileName (ts : String) : String :=
  "transcription_" ++ ts ++ ".txt"

/-- The environment a run executes in: the outcome of each fallible
external call, the model's raw answer (text and optional language tag), the
path `tempfile.NamedTemporaryFile` allocates, and the current timestamp. -/
structure Env where
  recordOutcome : Outcome
  sfWriteOutcome : Outcome
  transcribeOutcome : Outcome
  reportWriteOutcome : Outcome
  transcription : String
  language : Option String
  tempPath : String
  timestamp : Timestamp
  deriving DecidableEq, Repr

/-- `save_audio_temp` (lines 46-65): `tempfile.NamedTemporaryFile(
delete=False, suffix=".wav")` allocates the file on disk and its handle is
closed, then `sf.write` serializes the buffer into it.  When `sf.write`
raises, the function propagates the exception without returning a path,
but the allocated file stays on disk.  Returns the filesystem after the
call together with the returned path (`none` when the call raised). -/
def save_audio_temp (fs : FS) (tempPath : String) (writeOutcome : Outcome) :
    FS × Option String :=
  let fs1 := createFile fs tempPath emptyWav
  match writeOutcome with
  | Outcome.ok => (createFile fs1 tempPath wavData, some tempPath)
  | _ => (fs1, none)

/-- State at the end of the `try` body of `main` (normally or through an
exception), before the `except` handlers and the `finally` block run. -/
structure TryResult where
  fs : FS
  audio_path : Option String
  outcome : FinalOutcome
  warned : Bool
  transcribeCalled : Bool
  transcribeArgs : Option TranscribeArgs
  outputPath : Option String

/-- The `try` body of `main` (lines 134-188): record, save to the temporary
WAV file, transcribe with `MODEL_NAME = "medium"`, print the result, run
the script check (printing the mismatch warning and remediation hints when
it fails), and write the transcription to the timestamped output file.  An
exception or interrupt in a stage skips every later stage. -/
def tryBody (env : Env) : TryResult :=
  match env.recordOutcome with
  | Outcome.err =>
      { fs := [], audio_path := none, outcome := FinalOutcome.errored,
        warned := false, transcribeCalled := false, transcribeArgs := none,
        outputPath := none }
  | Outcome.interrupt =>
      { fs := [], audio_path := none, outcome := FinalOutcome.interrupted,
        warned := false, transcribeCalled := false, transcribeArgs := none,
        outputPath := none }
  | Outcome.ok =>
    let saved := save_audio_temp [] env.tempPath env.sfWriteOutcome
    match env.sfWriteOutcome with
    | Outcome.err =>
        { fs := saved.1, audio_path := saved.2,
          outcome := FinalOutcome.errored, warned := false,
          transcribeCalled := false, transcribeArgs := none,
          outputPath := none }
    | Outcome.interrupt =>
        { fs := saved.1, audio_path := saved.2,
          outcome := FinalOutcome.interrupted, warned := false,
          transcribeCalled := false, transcribeArgs := none,
          outputPath := none }
    | Outcome.ok =>
      let fs2 := saved.1
      let audio_path := saved.2
      let args := transcribe_call env.tempPath "medium"
      match env.transcribeOutcome with
      | Outcome.err =>
          { fs := fs2, audio_path := audio_path,
            outcome := FinalOutcome.errored, warned := false,
            transcribeCalled := true, transcribeArgs := some args,
            outputPath := none }
      | Outcome.interrupt =>
          { fs := fs2, audio_path := audio_path,
            outcome := FinalOutcome.interrupted, warned := false,
            transcribeCalled := true, transcribeArgs := some args,
            outputPath := none }
      | Outcome.ok =>
        let transcribed_text := (pyStrip env.transcription)
        let detected_lang := detectedLanguage env.language
        let report := validate transcribed_text detected_lang
        let warned := !report.matches_expected_script
        match env.reportWriteOutcome with
        | Outcome.err =>
            { fs := fs2, audio_path := audio_path,
              outcome := FinalOutcome.errored, warned := warned,
              transcribeCalled := true, transcribeArgs := some args,
              outputPath := none }
        | Outcome.interrupt =>
            { fs := fs2, audio_path := audio_path,
              outcome := FinalOutcome.interrupted, warned := warned,
              transcribeCalled := true, transcribeArgs := some args,
              outputPath := none }
        | Outcome.ok =>
          let output_file := outputFileName (formatTimestamp env.timestamp)
          { fs := createFile fs2 output_file transcribed_text,
            audio_path := audio_path, outcome := FinalOutcome.normal,
            warned := warned, transcribeCalled := true,
            transcribeArgs := some args, outputPath := some output_file }

/-- The `finally` block of `main` (lines 196-200): `if audio_path and
os.path.exists(audio_path): os.remove(audio_path)`.  Python truthiness of
`audio_path` requires it to be set and non-empty.  Returns the filesystem
after the block and whether the cleanup branch ran. -/
def runFinally (audio_path : Option String) (fs : FS) : FS × Bool :=
  match audio_path with
  | none => (fs, false)
  | some p =>
    if p ≠ "" ∧ fileExists fs p = true then (removeFile fs p, true)
    else (fs, false)

/-- The observable outcome of one whole run of `main`. -/
structure RunResult where
  fs : FS
  fsBeforeFinally : FS
  outcome : FinalOutcome
  printedTraceback : Bool
  printedInterruptNotice : Bool
  cleaned : Bool
  warned : Bool
  transcribeCalled : Bool
  transcribeArgs : Option TranscribeArgs
  outputPath : Option String

/-- `main` (lines 114-200): the `try` body, then the `except` handlers
(`KeyboardInterrupt` prints a terse notice, any other `Exception` prints a
message and `traceback.print_exc()`), then the `finally` cleanup. -/
def mainRun (env : Env) : RunResult :=
  let t := tryBody env
  let fin := runFinally t.audio_path t.fs
  { fs := fin.1
    fsBeforeFinally := t.fs
    outcome := t.outcome
    printedTraceback := decide (t.outcome = FinalOutcome.errored)
    printedInterruptNotice := decide (t.outcome = FinalOutcome.interrupted)
    cleaned := fin.2
    warned := t.warned
    transcribeCalled := t.transcribeCalled
    transcribeArgs := t.transcribeArgs
    outputPath := t.outputPath }

/-- Membership of a code point in any of the four script ranges the check
of `main` inspects (Gujarati, Telugu, Devanagari, Tamil). -/
def inAnyListedRange (c : Char) : Bool :=
  (decide (0x0A80 ≤ c.toNat) && decide (c.toNat ≤ 0x0AFF)) ||
  (decide (0x0C00 ≤ c.toNat) && decide (c.toNat ≤ 0x0C7F)) ||
  (decide (0x0900 ≤ c.toNat) && decide (c.toNat ≤ 0x097F)) ||
  (decide (0x0B80 ≤ c.toNat) && decide (c.toNat ≤ 0x0BFF))

/-- A concrete environment in which `sf.write` inside `save_audio_temp`
fails after `tempfile.NamedTemporaryFile` already allocated the file. -/
def leakEnv : Env :=
  { recordOutcome := Outcome.ok, sfWriteOutcome := Outcome.err,
    transcribeOutcome := Outcome.ok, reportWriteOutcome := Outcome.ok,
    transcription := "", language := some "gu",
    tempPath := "/tmp/tmpabc123.wav",
    timestamp := ⟨2025, 10, 12, 14, 30, 5⟩ }

/-- A concrete environment in which every external call succeeds and the
model answers in Gujarati script with language tag `"gu"`. -/
def happyEnv : Env :=
  { recordOutcome := Outcome.ok, sfWriteOutcome := Outcome.ok,
    transcribeOutcome := Outcome.ok, reportWriteOutcome := Outcome.ok,
    transcription := " ગુજરાતી ", language := some "gu",
    tempPath := "/tmp/tmpabc123.wav",
    timestamp := ⟨2025, 10, 12, 14, 30, 5⟩ }

/-- A concrete environment in which every external call succeeds but the
model answers romanized text with language tag `"gu"`. -/
def mismatchEnv : Env :=
  { recordOutcome := Outcome.ok, sfWriteOutcome := Outcome.ok,
    transcribeOutcome := Outcome.ok, reportWriteOutcome := Outcome.ok,
    transcription := "gujarati text", language := some "gu",
    tempPath := "/tmp/tmpabc123.wav",
    timestamp := ⟨2025, 10, 12, 14, 30, 5⟩ }

/-- A concrete environment in which the transcription stage raises an
ordinary exception. -/
def inferErrEnv : Env :=
  { recordOutcome := Outcome.ok, sfWriteOutcome := Outcome.ok,
    transcribeOutcome := Outcome.err, reportWriteOutcome := Outcome.ok,
    transcription := "", language := none,
    tempPath := "/tmp/tmpabc123.wav",
    timestamp := ⟨2025, 10, 12, 14, 30, 5⟩ }

/-! ### Helper lemmas about the filesystem model -/

theorem fileExists_cons (e : String × String) (fs : FS) (p : String) :
    fileExists (e :: fs) p = (decide (e.1 = p) || fileExists fs p) := rfl

theorem fileExists_filter_ne (fs : FS) (p q : String) (h : q ≠ p) :
    fileExists (fs.filter (fun e => e.1 ≠ q)) p = fileExists fs p := by
  induction fs with
  | nil => rfl
  | cons e t ih =>
    by_cases he : e.1 = q
    · rw [List.filter_cons_of_neg (by simp [he]), ih, fileExists_cons]
      simp [he, h]
    · rw [List.filter_cons_of_pos (by simp [he]), fileExists_cons,
        fileExists_cons, ih]

theorem fileExists_createFile_self (fs : FS) (p c : String) :
    fileExists (createFile fs p c) p = true := by
  simp [fileExists, createFile]

theorem fileExists_createFile (fs : FS) (p q c : String) :
    fileExists (createFile fs q c) p = (decide (q = p) || fileExists fs p) := by
  unfold createFile
  rw [fileExists_cons]
  by_cases h : q = p
  · subst h
    simp
  · rw [fileExists_filter_ne fs p q h]

theorem fileExists_removeFile_self (fs : FS) (p : String) :
    fileExists (removeFile fs p) p = false := by
  unfold removeFile
  induction fs with
  | nil => rfl
  | cons e t ih =>
    by_cases he : e.1 = p
    · rw [List.filter_cons_of_neg (by simp [he])]
      exact ih
    · rw [List.filter_cons_of_pos (by simp [he]), fileExists_cons, ih]
      simp [he]

theorem fileExists_removeFile_ne (fs : FS) (p q : String) (h : q ≠ p) :
    fileExists (removeFile fs q) p = fileExists fs p :=
  fileExists_filter_ne fs p q h

theorem fileContent_cons (e : String × String) (fs : FS) (p : String) :
    fileContent (e :: fs) p =
      if e.1 = p then some e.2 else fileContent fs p := by
  by_cases he : e.1 = p <;> simp [fileContent, List.find?_cons, he]

theorem fileContent_filter_ne (fs : FS) (p q : String) (h : q ≠ p) :
    fileContent (fs.filter (fun e => e.1 ≠ q)) p = fileContent fs p := by
  induction fs with
  | nil => rfl
  | cons e t ih =>
    by_cases he : e.1 = q
    · rw [List.filter_cons_of_neg (by simp [he]), ih, fileContent_cons]
      have hep : ¬(e.1 = p) := by
        rw [he]
        exact h
      simp [hep]
    · rw [List.filter_cons_of_pos (by simp [he]), fileContent_cons,
        fileContent_cons, ih]

theorem fileContent_createFile_self (fs : FS) (p c : String) :
    fileContent (createFile fs p c) p = some c := by
  simp [fileContent, createFile, List.find?_cons]

theorem fileContent_createFile_ne (fs : FS) (p q c : String) (h : q ≠ p) :
    fileContent (createFile fs q c) p = fileContent fs p := by
  unfold createFile
  have hqp : ¬((q, c).1 = p) := h
  simp only [fileContent, List.find?_cons, hqp]
  exact fileContent_filter_ne fs p q h

theorem fileContent_removeFile_ne (fs : FS) (p q : String) (h : q ≠ p) :
    fileContent (removeFile fs q) p = fileContent fs p :=
  fileContent_filter_ne fs p q h

/-! ### Helper lemmas about timestamp formatting -/

theorem digitChar_inj (a b : Nat) (ha : a < 10) (hb : b < 10)
    (h : Nat.digitChar a = Nat.digitChar b) : a = b := by
  interval_cases a <;> interval_cases b <;> revert h <;> decide

theorem pad2_inj (a b : Nat) (ha : a < 100) (hb : b < 100)
    (h : pad2 a = pad2 b) : a = b := by
  simp only [pad2, List.cons.injEq, and_true] at h
  have h1 := digitChar_inj (a / 10) (b / 10) (by omega) (by omega) h.1
  have h2 := digitChar_inj (a % 10) (b % 10) (by omega) (by omega) h.2
  omega

theorem pad2_length (n : Nat) : (pad2 n).length = 2 := rfl

theorem pad4_length (n : Nat) : (pad4 n).length = 4 := rfl

theorem pad4_inj (a b : Nat) (ha : a < 10000) (hb : b < 10000)
    (h : pad4 a = pad4 b) : a = b := by
  unfold pad4 at h
  obtain ⟨h1, h2⟩ := List.append_inj h (by rw [pad2_length, pad2_length])
  have e1 := pad2_inj (a / 100) (b / 100) (by omega) (by omega) h1
  have e2 := pad2_inj (a % 100) (b % 100) (by omega) (by omega) h2
  omega

theorem formatTimestamp_inj (t1 t2 : Timestamp)
    (h1 : t1.Valid) (h2 : t2.Valid)
    (h : formatTimestamp t1 = formatTimestamp t2) : t1 = t2 := by
  obtain ⟨y1, mo1, d1, ho1, mi1, s1⟩ := t1
  obtain ⟨y2, mo2, d2, ho2, mi2, s2⟩ := t2
  obtain ⟨hy1, hmo1, hd1, hho1, hmi1, hs1⟩ := h1
  obtain ⟨hy2, hmo2, hd2, hho2, hmi2, hs2⟩ := h2
  have hd : pad4 y1 ++ (pad2 mo1 ++ (pad2 d1 ++
        ('_' :: (pad2 ho1 ++ (pad2 mi1 ++ pad2 s1))))) =
      pad4 y2 ++ (pad2 mo2 ++ (pad2 d2 ++
        ('_' :: (pad2 ho2 ++ (pad2 mi2 ++ pad2 s2))))) := by
    have := congrArg String.data h
    simpa [formatTimestamp] using this
  obtain ⟨hy, rest1⟩ := List.append_inj hd (by rw [pad4_length, pad4_length])
  obtain ⟨hmo, rest2⟩ := List.append_inj rest1 (by rw [pad2_length, pad2_length])
  obtain ⟨hdy, rest3⟩ := List.append_inj rest2 (by rw [pad2_length, pad2_length])
  have rest4 : pad2 ho1 ++ (pad2 mi1 ++ pad2 s1) =
      pad2 ho2 ++ (pad2 mi2 ++ pad2 s2) := by
    injection rest3
  obtain ⟨hho, rest5⟩ := List.append_inj rest4 (by rw [pad2_length, pad2_length])
  obtain ⟨hmi, hs⟩ := List.append_inj rest5 (by rw [pad2_length, pad2_length])
  have := pad4_inj y1 y2 hy1 hy2 hy
  have := pad2_inj mo1 mo2 hmo1 hmo2 hmo
  have := pad2_inj d1 d2 hd1 hd2 hdy
  have := pad2_inj ho1 ho2 hho1 hho2 hho
  have := pad2_inj mi1 mi2 hmi1 hmi2 hmi
  have := pad2_inj s1 s2 hs1 hs2 hs
  simp_all

theorem outputFileName_inj (s1 s2 : String)
    (h : outputFileName s1 = outputFileName s2) : s1 = s2 := by
  unfold outputFileName at h
  have hd := congrArg String.data h
  simp only [String.data_append] at hd
  have h1 := List.append_cancel_right hd
  have h2 := List.append_cancel_left h1
  exact String.ext h2

/-- Reduction of the `finally` block when the audio path was recorded,
is non-empty and the file still exists. -/
theorem runFinally_removes (p : String) (fs : FS)
    (hp : p ≠ "") (hex : fileExists fs p = true) :
    runFinally (some p) fs = (removeFile fs p, true) := by
  simp [runFinally, hp, hex]

/-- Any code point in a conjunction-of-bounds range test that fails leaves
an any-character-in-range scan over a list unchanged when it is inserted in
the middle. -/
theorem hasScriptRange_middle (lo hi : Nat) (l1 l2 : List Char) (c : Char)
    (hc : (decide (lo ≤ c.toNat) && decide (c.toNat ≤ hi)) = false) :
    hasScriptRange lo hi (l1 ++ c :: l2) = hasScriptRange lo hi (l1 ++ l2) := by
  simp [hasScriptRange, List.any_append, List.any_cons, hc]

/-! ### Claim theorems -/

/-- C2: for every supported model name (tiny, base, small, medium, large),
`transcribe_audio` invokes `model.transcribe` with language hint `"gu"` and
task `"transcribe"`, and never with task `"translate"`. -/
theorem transcribe_call_language_and_task (audio_path model_name : String)
    (_hm : model_name ∈ ["tiny", "base", "small", "medium", "large"]) :
    (transcribe_call audio_path model_name).language = "gu" ∧
    (transcribe_call audio_path model_name).task = "transcribe" ∧
    (transcribe_call audio_path model_name).task ≠ "translate" := by
  refine ⟨rfl, rfl, ?_⟩
  show ("transcribe" : String) ≠ "translate"
  decide

/-- C2 witness: the property at model name `"tiny"`. -/
theorem transcribe_call_language_and_task_witness :
    (transcribe_call "/tmp/tmpabc123.wav" "tiny").language = "gu" ∧
    (transcribe_call "/tmp/tmpabc123.wav" "tiny").task = "transcribe" ∧
    (transcribe_call "/tmp/tmpabc123.wav" "tiny").task ≠ "translate" :=
  transcribe_call_language_and_task "/tmp/tmpabc123.wav" "tiny" (by decide)

/-- C3: when the detected language is `"gu"` and the text contains at least
one code point in the Gujarati block U+0A80-U+0AFF, the validation reports
`matches_expected_script = true` and no likely alternate script. -/
theorem validate_gu_with_gujarati_script (t : String)
    (h : hasScriptRange 0x0A80 0x0AFF t.data = true) :
    validate t "gu" =
      { matches_expected_script := true, likely_actual_script := none } := by
  unfold validate validateL
  simp [h]

/-- C3 witness: the property at the text `"ગુજરાતી"`. -/
theorem validate_gu_with_gujarati_script_witness :
    validate "ગુજરાતી" "gu" =
      { matches_expected_script := true, likely_actual_script := none } :=
  validate_gu_with_gujarati_script "ગુજરાતી" (by decide)

/-- C4: when the detected language is `"gu"` and the text has no Gujarati
code point, the likely alternate script is classified in the fixed priority
order Telugu, Devanagari, Tamil, with "Latin/Romanized" as fallback; in
particular `"తెలుగు"` classifies as Telugu and `"gujarati text"` as
Latin/Romanized. -/
theorem validate_gu_alt_script_priority :
    (∀ t : String, hasScriptRange 0x0A80 0x0AFF t.data = false →
      validate t "gu" =
        { matches_expected_script := false
          likely_actual_script :=
            some (if hasScriptRange 0x0C00 0x0C7F t.data then
                    AltScript.telugu
                  else if hasScriptRange 0x0900 0x097F t.data then
                    AltScript.devanagari
                  else if hasScriptRange 0x0B80 0x0BFF t.data then
                    AltScript.tamil
                  else AltScript.latinRomanized) }) ∧
    validate "తెలుగు" "gu" =
      { matches_expected_script := false
        likely_actual_script := some AltScript.telugu } ∧
    validate "gujarati text" "gu" =
      { matches_expected_script := false
        likely_actual_script := some AltScript.latinRomanized } := by
  refine ⟨?_, by decide, by decide⟩
  intro t h
  unfold validate validateL
  simp [h]

/-- C4 witness: the universally quantified part applied at `"తెలుగు"`. -/
theorem validate_gu_alt_script_priority_witness :
    validate "తెలుగు" "gu" =
      { matches_expected_script := false
        likely_actual_script :=
          some (if hasScriptRange 0x0C00 0x0C7F ("తెలుగు" : String).data then
                  AltScript.telugu
                else if hasScriptRange 0x0900 0x097F ("తెలుగు" : String).data then
                  AltScript.devanagari
                else if hasScriptRange 0x0B80 0x0BFF ("తెలుగు" : String).data then
                  AltScript.tamil
                else AltScript.latinRomanized) } :=
  validate_gu_alt_script_priority.1 "తెలుగు" (by decide)

/-- C5: for every text, when the detected language is not `"gu"`, the
validation reports `matches_expected_script = true` and no mismatch,
regardless of the text's content. -/
theorem validate_non_gu_always_matches (t lang : String) (h : lang ≠ "gu") :
    validate t lang =
      { matches_expected_script := true, likely_actual_script := none } := by
  unfold validate validateL
  simp [h]

/-- C5 witness: the property at `"hello world"` with detected language
`"en"`. -/
theorem validate_non_gu_always_matches_witness :
    validate "hello world" "en" =
      { matches_expected_script := true, likely_actual_script := none } :=
  validate_non_gu_always_matches "hello world" "en" (by decide)

/-- C6: the script check has any-character-in-range semantics, so inserting
(equivalently, removing) a code point lying outside all four listed script
ranges anywhere in the text leaves the whole validation verdict
unchanged. -/
theorem validate_ignores_unlisted_codepoints (l1 l2 : List Char) (c : Char)
    (lang : String) (h : inAnyListedRange c = false) :
    validateL (l1 ++ c :: l2) lang = validateL (l1 ++ l2) lang := by
  simp only [inAnyListedRange, Bool.or_eq_false_iff] at h
  obtain ⟨⟨⟨hg, ht⟩, hd⟩, hta⟩ := h
  unfold validateL
  rw [hasScriptRange_middle _ _ _ _ _ hg, hasScriptRange_middle _ _ _ _ _ ht,
    hasScriptRange_middle _ _ _ _ _ hd, hasScriptRange_middle _ _ _ _ _ hta]

/-- C6 witness: inserting the punctuation character `'!'` into `"ab"`. -/
theorem validate_ignores_unlisted_codepoints_witness :
    validateL ('a' :: '!' :: 'b' :: []) "gu" =
      validateL ('a' :: 'b' :: []) "gu" :=
  validate_ignores_unlisted_codepoints ('a' :: []) ('b' :: []) '!' "gu"
    (by decide)

/-- C10: when the raw model result lacks a `"language"` entry, the detected
language is reported as `"unknown"`, and the script-mismatch check never
fires for such a result since `"unknown"` is not `"gu"`. -/
theorem missing_language_reported_unknown (raw : Option String) (t : String)
    (h : raw = none) :
    detectedLanguage raw = "unknown" ∧
    validate t (detectedLanguage raw) =
      { matches_expected_script := true, likely_actual_script := none } := by
  subst h
  refine ⟨rfl, ?_⟩
  have hne : ("unknown" : String) ≠ "gu" := by decide
  unfold validate validateL detectedLanguage
  simp [hne]

/-- C10 witness: a missing language tag with the Gujarati text
`"ગુજરાતી"`. -/
theorem missing_language_reported_unknown_witness :
    detectedLanguage none = "unknown" ∧
    validate "ગુજરાતી" (detectedLanguage none) =
      { matches_expected_script := true, likely_actual_script := none } :=
  missing_language_reported_unknown none "ગુજરાતી" rfl

/-- C1 counterexample: when `sf.write` inside `save_audio_temp` raises after
`tempfile.NamedTemporaryFile` already allocated the file, the exception
propagates before `audio_path` is assigned in `main`, so the `finally`
cleanup skips the file and a temporary WAV file created during the run
still exists after the run completes. -/
theorem tempFile_leak_on_write_failure :
    fileExists (mainRun leakEnv).fs "/tmp/tmpabc123.wav" = true ∧
    (mainRun leakEnv).outcome = FinalOutcome.errored ∧
    (mainRun leakEnv).cleaned = false := by decide

/-- C1 (amended): whenever `save_audio_temp` returns (record and `sf.write`
both succeed), the returned temporary WAV file exists on disk from that
moment, still exists just before the `finally` cleanup regardless of how
the later stages end (normally, interrupted or errored), and no longer
exists after the run completes. -/
theorem tempFile_lifecycle_when_writer_returns (env : Env)
    (hp : env.tempPath ≠ "")
    (hr : env.recordOutcome = Outcome.ok)
    (hw : env.sfWriteOutcome = Outcome.ok) :
    (save_audio_temp [] env.tempPath Outcome.ok).2 = some env.tempPath ∧
    fileExists (save_audio_temp [] env.tempPath Outcome.ok).1
      env.tempPath = true ∧
    fileExists (mainRun env).fsBeforeFinally env.tempPath = true ∧
    fileExists (mainRun env).fs env.tempPath = false := by
  refine ⟨rfl, by simp [save_audio_temp, fileExists_createFile_self], ?_, ?_⟩ <;>
  · rcases hto : env.transcribeOutcome with _ | _ | _ <;>
    rcases hpo : env.reportWriteOutcome with _ | _ | _ <;>
    simp [mainRun, tryBody, save_audio_temp, runFinally, hr, hw, hto, hpo, hp,
      fileExists_createFile, fileExists_createFile_self,
      fileExists_removeFile_self]

/-- C1 witness: the amended lifecycle at a concrete all-success
environment. -/
theorem tempFile_lifecycle_when_writer_returns_witness :
    (save_audio_temp [] happyEnv.tempPath Outcome.ok).2 =
      some happyEnv.tempPath ∧
    fileExists (save_audio_temp [] happyEnv.tempPath Outcome.ok).1
      happyEnv.tempPath = true ∧
    fileExists (mainRun happyEnv).fsBeforeFinally happyEnv.tempPath = true ∧
    fileExists (mainRun happyEnv).fs happyEnv.tempPath = false :=
  tempFile_lifecycle_when_writer_returns happyEnv (by decide) rfl rfl

/-- C8: a script mismatch (detected language `"gu"` but text lacking
Gujarati code points) is not treated as an error: the run prints the
warning with remediation suggestions, still completes normally, and still
writes the transcript output file with the transcription text. -/
theorem script_mismatch_is_nonfatal (env : Env)
    (h1 : env.recordOutcome = Outcome.ok)
    (h2 : env.sfWriteOutcome = Outcome.ok)
    (h3 : env.transcribeOutcome = Outcome.ok)
    (h4 : env.reportWriteOutcome = Outcome.ok)
    (hlang : env.language = some "gu")
    (hscript : hasScriptRange 0x0A80 0x0AFF (pyStrip env.transcription).data = false)
    (hname : env.tempPath ≠ outputFileName (formatTimestamp env.timestamp)) :
    (mainRun env).warned = true ∧
    (mainRun env).outcome = FinalOutcome.normal ∧
    (mainRun env).outputPath =
      some (outputFileName (formatTimestamp env.timestamp)) ∧
    fileContent (mainRun env).fs
        (outputFileName (formatTimestamp env.timestamp)) =
      some (pyStrip env.transcription) := by
  have hname' : outputFileName (formatTimestamp env.timestamp) ≠ env.tempPath :=
    Ne.symm hname
  by_cases hp : env.tempPath = "" <;>
  · simp [mainRun, tryBody, save_audio_temp, runFinally, h1, h2, h3, h4,
      hlang, hscript, hp, hname, hname', validate, validateL, detectedLanguage,
      fileExists_createFile, fileExists_createFile_self,
      fileContent_createFile_self, fileContent_removeFile_ne]

/-- C8 witness: the mismatch scenario at a concrete environment whose model
answer is romanized text tagged `"gu"`. -/
theorem script_mismatch_is_nonfatal_witness :
    (mainRun mismatchEnv).warned = true ∧
    (mainRun mismatchEnv).outcome = FinalOutcome.normal ∧
    (mainRun mismatchEnv).outputPath =
      some (outputFileName (formatTimestamp mismatchEnv.timestamp)) ∧
    fileContent (mainRun mismatchEnv).fs
        (outputFileName (formatTimestamp mismatchEnv.timestamp)) =
      some (pyStrip mismatchEnv.transcription) :=
  script_mismatch_is_nonfatal mismatchEnv rfl rfl rfl rfl rfl (by decide)
    (by decide)

/-- C7: on a successful run the transcription text is written verbatim (no
transformation beyond the strip already applied to the model result) to the
file `transcription_<YYYYMMDD_HHMMSS>.txt` named from the current
timestamp, and two runs started in different seconds produce two distinct
output file names. -/
theorem output_verbatim_and_names_distinct (env : Env)
    (h1 : env.recordOutcome = Outcome.ok)
    (h2 : env.sfWriteOutcome = Outcome.ok)
    (h3 : env.transcribeOutcome = Outcome.ok)
    (h4 : env.reportWriteOutcome = Outcome.ok)
    (hname : env.tempPath ≠ outputFileName (formatTimestamp env.timestamp))
    (t1 t2 : Timestamp) (hv1 : t1.Valid) (hv2 : t2.Valid) (hne : t1 ≠ t2) :
    (mainRun env).outcome = FinalOutcome.normal ∧
    (mainRun env).outputPath =
      some (outputFileName (formatTimestamp env.timestamp)) ∧
    fileContent (mainRun env).fs
        (outputFileName (formatTimestamp env.timestamp)) =
      some (pyStrip env.transcription) ∧
    outputFileName (formatTimestamp t1) ≠ outputFileName (formatTimestamp t2) := by
  have hname' : outputFileName (formatTimestamp env.timestamp) ≠ env.tempPath :=
    Ne.symm hname
  refine ⟨?_, ?_, ?_,
    fun hcon => hne (formatTimestamp_inj t1 t2 hv1 hv2
      (outputFileName_inj _ _ hcon))⟩
  all_goals
    by_cases hp : env.tempPath = "" <;>
    · simp [mainRun, tryBody, save_audio_temp, runFinally, h1, h2, h3, h4,
        hp, hname, hname', fileExists_createFile, fileExists_createFile_self,
        fileContent_createFile_self, fileContent_removeFile_ne]

/-- C7 witness: the property at a concrete all-success environment and the
two valid timestamps 2025-10-12 14:30:05 and 2025-10-12 14:30:06 (one
second apart). -/
theorem output_verbatim_and_names_distinct_witness :
    (mainRun happyEnv).outcome = FinalOutcome.normal ∧
    (mainRun happyEnv).outputPath =
      some (outputFileName (formatTimestamp happyEnv.timestamp)) ∧
    fileContent (mainRun happyEnv).fs
        (outputFileName (formatTimestamp happyEnv.timestamp)) =
      some (pyStrip happyEnv.transcription) ∧
    outputFileName (formatTimestamp ⟨2025, 10, 12, 14, 30, 5⟩) ≠
      outputFileName (formatTimestamp ⟨2025, 10, 12, 14, 30, 6⟩) :=
  output_verbatim_and_names_distinct happyEnv rfl rfl rfl rfl (by decide)
    ⟨2025, 10, 12, 14, 30, 5⟩ ⟨2025, 10, 12, 14, 30, 6⟩
    (by simp [Timestamp.Valid]) (by simp [Timestamp.Valid]) (by decide)

/-- C9: every error raised in a pipeline stage aborts all remaining stages
(no transcription call after a capture/save failure, no output file after
any failure) and is reported with the error message and a full traceback,
while a user interruption is reported distinctly and tersely with no
traceback. -/
theorem errors_abort_and_are_reported (env : Env) :
    ((mainRun env).printedTraceback = true ↔
      (mainRun env).outcome = FinalOutcome.errored) ∧
    ((mainRun env).printedInterruptNotice = true ↔
      (mainRun env).outcome = FinalOutcome.interrupted) ∧
    ((mainRun env).outcome = FinalOutcome.interrupted →
      (mainRun env).printedTraceback = false) ∧
    (env.recordOutcome ≠ Outcome.ok →
      (mainRun env).transcribeCalled = false ∧
      (mainRun env).outputPath = none) ∧
    (env.sfWriteOutcome ≠ Outcome.ok →
      (mainRun env).transcribeCalled = false ∧
      (mainRun env).outputPath = none) ∧
    (env.transcribeOutcome ≠ Outcome.ok → (mainRun env).outputPath = none) ∧
    (env.reportWriteOutcome ≠ Outcome.ok → (mainRun env).outputPath = none) := by
  rcases hro : env.recordOutcome with _ | _ | _ <;>
  rcases hwo : env.sfWriteOutcome with _ | _ | _ <;>
  rcases hto : env.transcribeOutcome with _ | _ | _ <;>
  rcases hpo : env.reportWriteOutcome with _ | _ | _ <;>
  simp [mainRun, tryBody, save_audio_temp, hro, hwo, hto, hpo]

/-- C9 witness: uninterrupted failure of the transcription stage leaves no
output file and prints the traceback. -/
theorem errors_abort_and_are_reported_witness :
    (mainRun inferErrEnv).outputPath = none ∧
    (mainRun inferErrEnv).printedTraceback = true :=
  ⟨(errors_abort_and_are_reported inferErrEnv).2.2.2.2.2.1 (by decide),
   ((errors_abort_and_are_reported inferErrEnv).1).mpr (by decide)⟩
